import Mathlib

/-!
# PSoC 4 watchdog example (`main.c`): interrupt-mode state machine

A shallow embedding of `wdt_init`, `wdt_isr` and the body of the `for (;;)`
loop of `main`, as state transformers over the C globals and the watchdog
registers.  Machine integers are natural numbers reduced explicitly:
`uint16_t` values modulo `2^16`, `uint32_t` values modulo `2^32`.

The peripheral driver library (`Cy_WDT_*`, `Cy_SysClk_*`, ...) is outside
`main.c`; each driver call used by `main.c` is modelled by its effect on the
registers, and every call that acts on the hardware is appended to a call log.
-/

namespace WdtExample

/-! ## Compile-time constants of `main.c` -/

def WDT_RESET_DEMO : Nat := 1
def WDT_INTERRUPT_DEMO : Nat := 2
def WDT_DEMO : Nat := WDT_INTERRUPT_DEMO
def ILO_FREQUENCY_HZ : Nat := 40000
def WDT_INTERRUPT_INTERVAL_MS : Nat := 1000
def WDT_INTERRUPT_PRIORITY : Nat := 0
def DESIRED_WDT_INTERVAL : Nat := WDT_INTERRUPT_INTERVAL_MS * 1000
def IGNORE_BITS : Nat := 0
def ILO_START_UP_TIME : Nat := 2

/-- Width of `uint16_t`: the match register and the value of `Cy_WDT_GetMatch`. -/
def U16 : Nat := 2 ^ 16

/-- Width of `uint32_t`: `ilo_compensated_counts` and `temp_ilo_counts`. -/
def U32 : Nat := 2 ^ 32

/-! ## Driver status codes and environment -/

/-- Return codes of the clock driver (`cy_en_sysclk_status_t`). -/
inductive cy_en_sysclk_status_t
  | CY_SYSCLK_SUCCESS
  | CY_SYSCLK_BAD_PARAM
  | CY_SYSCLK_TIMEOUT
  | CY_SYSCLK_INVALID_STATE
  | CY_SYSCLK_STARTED
  deriving DecidableEq, Repr

/-- Return codes of `Cy_SysInt_Init` (`cy_en_sysint_status_t`). -/
inductive cy_en_sysint_status_t
  | CY_SYSINT_SUCCESS
  | CY_SYSINT_BAD_PARAM
  deriving DecidableEq, Repr

/-- Non-success return codes of `Cy_SysClk_IloCompensate`. -/
inductive IloError
  | BAD_PARAM
  | TIMEOUT
  | INVALID_STATE
  | STARTED
  deriving DecidableEq, Repr

/-- Outcome of one call `Cy_SysClk_IloCompensate(DESIRED_WDT_INTERVAL, &temp_ilo_counts)`,
chosen by the environment: either success with the tick count stored through the
pointer, or an error code, with whatever the driver may have stored through the
pointer on that path (`none`: the target is left alone). -/
inductive IloOutcome
  | success (cycles : Nat)
  | failure (err : IloError) (stored : Option Nat)
  deriving DecidableEq, Repr

/-- Status code returned to the caller. -/
def IloOutcome.status : IloOutcome → cy_en_sysclk_status_t
  | .success _ => .CY_SYSCLK_SUCCESS
  | .failure .BAD_PARAM _ => .CY_SYSCLK_BAD_PARAM
  | .failure .TIMEOUT _ => .CY_SYSCLK_TIMEOUT
  | .failure .INVALID_STATE _ => .CY_SYSCLK_INVALID_STATE
  | .failure .STARTED _ => .CY_SYSCLK_STARTED

/-- Value of the `uint32_t` pointer target after the call, given its value before. -/
def IloOutcome.target (old : Nat) : IloOutcome → Nat
  | .success cycles => cycles % U32
  | .failure _ (some v) => v % U32
  | .failure _ none => old

/-- Response of the hardware to the configuration writes of `wdt_init`.  A
working peripheral latches what is written; a faulty one may latch anything,
which is what the readback checks of `wdt_init` are there to detect. -/
structure Periph where
  /-- content of the ignore-bits field after `Cy_WDT_SetIgnoreBits v` -/
  latchIgnoreBits : Nat → Nat
  /-- content of the match register after `Cy_WDT_SetMatch v` -/
  latchMatch : Nat → Nat
  /-- enabled bit after `Cy_WDT_Enable` -/
  latchEnable : Bool
  /-- status reported by `Cy_SysInt_Init(&wdt_isr_cfg, wdt_isr)` -/
  sysIntInit : cy_en_sysint_status_t

/-- A working peripheral: the ignore-bits field holds 4 bits, the match register
16 bits, enabling takes effect and the interrupt controller accepts the handler. -/
def workingPeriph : Periph where
  latchIgnoreBits := fun v => v % 16
  latchMatch := fun v => v % U16
  latchEnable := true
  sysIntInit := .CY_SYSINT_SUCCESS

/-- Driver calls of `main.c` that act on the hardware, as recorded in the call log. -/
inductive Call
  | Cy_WDT_SetIgnoreBits (bits : Nat)
  | Cy_WDT_ClearInterrupt
  | Cy_SysClk_IloEnable
  | Cy_SysLib_Delay (ms : Nat)
  | Cy_SysClk_IloStartMeasurement
  | Cy_SysClk_IloCompensate (desired : Nat)
  | Cy_WDT_SetMatch (value : Nat)
  | Cy_SysInt_Init
  | NVIC_EnableIRQ
  | Cy_WDT_UnmaskInterrupt
  | Cy_WDT_MaskInterrupt
  | Cy_WDT_Enable
  | Cy_GPIO_Inv
  | Cy_SysClk_IloStopMeasurement
  | Cy_SysPm_CpuEnterDeepSleep
  deriving DecidableEq, Repr

/-- Recognises a `Cy_WDT_SetMatch` call, whatever its argument. -/
def Call.isSetMatch : Call → Bool
  | .Cy_WDT_SetMatch _ => true
  | _ => false

/-- Recognises a `Cy_WDT_UnmaskInterrupt` call. -/
def Call.isUnmask : Call → Bool
  | .Cy_WDT_UnmaskInterrupt => true
  | _ => false

/-! ## Program state -/

/-- Globals of `main.c` together with the hardware they drive. -/
structure State where
  /-- global `volatile bool interrupt_flag` -/
  interrupt_flag : Bool
  /-- global `static uint32_t ilo_compensated_counts` -/
  ilo_compensated_counts : Nat
  /-- global `static uint32_t temp_ilo_counts` -/
  temp_ilo_counts : Nat
  /-- free-running watchdog counter (hardware-owned) -/
  wdtCounter : Nat
  /-- watchdog match register -/
  wdtMatch : Nat
  /-- watchdog ignore-bits field -/
  wdtIgnoreBits : Nat
  /-- watchdog enabled bit -/
  wdtEnabled : Bool
  /-- watchdog interrupt source masked -/
  wdtMasked : Bool
  /-- watchdog interrupt status (match event latched) -/
  wdtIntrStatus : Bool
  /-- handler installed in the interrupt controller -/
  isrInstalled : Bool
  /-- watchdog interrupt line enabled in the NVIC -/
  nvicEnabled : Bool
  /-- low-frequency oscillator running -/
  iloEnabled : Bool
  /-- oscillator measurement running -/
  iloMeasuring : Bool
  /-- level of the user LED pin -/
  led : Bool
  /-- driver calls made so far, oldest first -/
  log : List Call
  deriving DecidableEq, Repr

/-- State at entry to `main`: the globals hold their C initialisers
(`interrupt_flag = false`, both counts `0U`), the watchdog registers hold the
given reset values and nothing has been called yet. -/
def bootState (counter matchReset : Nat) : State where
  interrupt_flag := false
  ilo_compensated_counts := 0
  temp_ilo_counts := 0
  wdtCounter := counter
  wdtMatch := matchReset
  wdtIgnoreBits := 0
  wdtEnabled := false
  wdtMasked := true
  wdtIntrStatus := false
  isrInstalled := false
  nvicEnabled := false
  iloEnabled := false
  iloMeasuring := false
  led := false
  log := []

/-! ## Driver calls -/

def record (c : Call) (s : State) : State :=
  { s with log := s.log ++ [c] }

def Cy_WDT_SetIgnoreBits (hw : Periph) (bits : Nat) (s : State) : State :=
  record (.Cy_WDT_SetIgnoreBits bits) { s with wdtIgnoreBits := hw.latchIgnoreBits bits }

def Cy_WDT_GetIgnoreBits (s : State) : Nat :=
  s.wdtIgnoreBits % U32

def Cy_WDT_ClearInterrupt (s : State) : State :=
  record .Cy_WDT_ClearInterrupt { s with wdtIntrStatus := false }

def Cy_WDT_MaskInterrupt (s : State) : State :=
  record .Cy_WDT_MaskInterrupt { s with wdtMasked := true }

def Cy_WDT_UnmaskInterrupt (s : State) : State :=
  record .Cy_WDT_UnmaskInterrupt { s with wdtMasked := false }

/-- The parameter is a `uint16_t`: the argument is converted at the call. -/
def Cy_WDT_SetMatch (hw : Periph) (value : Nat) (s : State) : State :=
  record (.Cy_WDT_SetMatch (value % U16)) { s with wdtMatch := hw.latchMatch (value % U16) }

/-- The result is a `uint16_t`. -/
def Cy_WDT_GetMatch (s : State) : Nat :=
  s.wdtMatch % U16

def Cy_WDT_Enable (hw : Periph) (s : State) : State :=
  record .Cy_WDT_Enable { s with wdtEnabled := hw.latchEnable }

def Cy_WDT_IsEnabled (s : State) : Bool :=
  s.wdtEnabled

def Cy_SysClk_IloEnable (s : State) : State :=
  record .Cy_SysClk_IloEnable { s with iloEnabled := true }

def Cy_SysLib_Delay (ms : Nat) (s : State) : State :=
  record (.Cy_SysLib_Delay ms) s

def Cy_SysClk_IloStartMeasurement (s : State) : State :=
  record .Cy_SysClk_IloStartMeasurement { s with iloMeasuring := true }

def Cy_SysClk_IloStopMeasurement (s : State) : State :=
  record .Cy_SysClk_IloStopMeasurement { s with iloMeasuring := false }

/-- The call `Cy_SysClk_IloCompensate(desired, &temp_ilo_counts)`: returns the
status and updates the pointer target as the outcome says. -/
def Cy_SysClk_IloCompensate (r : IloOutcome) (desired : Nat) (s : State) :
    cy_en_sysclk_status_t × State :=
  (r.status,
    record (.Cy_SysClk_IloCompensate desired)
      { s with temp_ilo_counts := r.target s.temp_ilo_counts })

def Cy_SysInt_Init (hw : Periph) (s : State) : cy_en_sysint_status_t × State :=
  (hw.sysIntInit,
    record .Cy_SysInt_Init
      { s with isrInstalled := decide (hw.sysIntInit = .CY_SYSINT_SUCCESS) })

def NVIC_EnableIRQ (s : State) : State :=
  record .NVIC_EnableIRQ { s with nvicEnabled := true }

def Cy_GPIO_Inv (s : State) : State :=
  record .Cy_GPIO_Inv { s with led := !s.led }

def Cy_SysPm_CpuEnterDeepSleep (s : State) : State :=
  record .Cy_SysPm_CpuEnterDeepSleep s

/-! ## The program -/

/-- Modelled from the spec: the assertion facility `CY_ASSERT` is defined outside
`main.c`; per the error-handling design a failed assertion halts immediately with
no recovery, so `CY_ASSERT(0)` ends the run (`none`); an assertion that holds
lets it continue. -/
def CY_ASSERT (cond : Bool) (s : State) : Option State :=
  if cond then some s else none

/-- Runs statements in order. -/
def runSteps (steps : List (State → State)) (s : State) : State :=
  steps.foldl (fun acc f => f acc) s

/-- States at the program points of a statement sequence: before the first
statement, then after each statement in turn. -/
def programPoints : List (State → State) → State → List State
  | [], s => [s]
  | f :: fs, s => s :: programPoints fs (f s)

/-- The compensation attempt, written identically in `wdt_init` and in the loop:
`if (CY_SYSCLK_SUCCESS == Cy_SysClk_IloCompensate(DESIRED_WDT_INTERVAL, &temp_ilo_counts))`
`    ilo_compensated_counts = (uint32_t)temp_ilo_counts;` -/
def compensate_counts (r : IloOutcome) (s : State) : State :=
  let res := Cy_SysClk_IloCompensate r DESIRED_WDT_INTERVAL s
  if res.1 = .CY_SYSCLK_SUCCESS then
    { res.2 with ilo_compensated_counts := res.2.temp_ilo_counts % U32 }
  else
    res.2

/-- Step 1 of `wdt_init`: write the ignore bits and check the readback. -/
def wdt_init_step1 (hw : Periph) (s : State) : Option State :=
  let s1 := Cy_WDT_SetIgnoreBits hw IGNORE_BITS s
  if Cy_WDT_GetIgnoreBits s1 ≠ IGNORE_BITS then CY_ASSERT false s1 else some s1

/-- Steps 2 and 3 of `wdt_init`: clear the interrupt, start the oscillator and
its measurement, attempt the first compensation. -/
def wdt_init_step2_3 (r : IloOutcome) (s : State) : State :=
  let s1 := Cy_WDT_ClearInterrupt s
  let s2 := Cy_SysClk_IloEnable s1
  let s3 := Cy_SysLib_Delay ILO_START_UP_TIME s2
  let s4 := Cy_SysClk_IloStartMeasurement s3
  compensate_counts r s4

/-- Step 4 of `wdt_init`: `Cy_WDT_SetMatch(ilo_compensated_counts)` followed by
`if (Cy_WDT_GetMatch() != ilo_compensated_counts) CY_ASSERT(0)`.  The readback is
promoted to 32 bits and compared with the count itself. -/
def wdt_init_step4 (hw : Periph) (s : State) : Option State :=
  let s1 := Cy_WDT_SetMatch hw s.ilo_compensated_counts s
  if Cy_WDT_GetMatch s1 ≠ s1.ilo_compensated_counts then CY_ASSERT false s1 else some s1

/-- Step 5 of `wdt_init`: install the handler, enable the line, unmask. -/
def wdt_init_step5 (hw : Periph) (s : State) : Option State :=
  let res := Cy_SysInt_Init hw s
  (if res.1 ≠ .CY_SYSINT_SUCCESS then CY_ASSERT false res.2 else some res.2).map
    fun s2 => Cy_WDT_UnmaskInterrupt (NVIC_EnableIRQ s2)

/-- Step 6 of `wdt_init`: enable the watchdog and check that it is enabled. -/
def wdt_init_step6 (hw : Periph) (s : State) : Option State :=
  let s1 := Cy_WDT_Enable hw s
  if Cy_WDT_IsEnabled s1 = false then CY_ASSERT false s1 else some s1

/-- The function `wdt_init`; `none` when a `CY_ASSERT(0)` is reached. -/
def wdt_init (hw : Periph) (r : IloOutcome) (s : State) : Option State :=
  (wdt_init_step1 hw s).bind fun s1 =>
    let s3 := wdt_init_step2_3 r s1
    (if WDT_DEMO = WDT_INTERRUPT_DEMO then
        (wdt_init_step4 hw s3).bind (wdt_init_step5 hw)
      else
        some s3).bind (wdt_init_step6 hw)

/-- Statements of `wdt_isr` in interrupt mode. -/
def wdt_isr_body : List (State → State) :=
  [ Cy_WDT_MaskInterrupt,
    fun s => { s with interrupt_flag := true } ]

/-- The handler `wdt_isr`. -/
def wdt_isr (s : State) : State :=
  runSteps wdt_isr_body s

/-- Statements of the branch `if (interrupt_flag == true) { ... }` of the loop. -/
def main_loop_service (hw : Periph) : List (State → State) :=
  [ Cy_WDT_ClearInterrupt,
    Cy_WDT_UnmaskInterrupt,
    fun s => { s with interrupt_flag := false },
    fun s => Cy_WDT_SetMatch hw
      (((Cy_WDT_GetMatch s + s.ilo_compensated_counts) % U32) % U16) s,
    Cy_GPIO_Inv ]

/-- Statements of the loop that follow the branch. -/
def main_loop_common (r : IloOutcome) : List (State → State) :=
  [ compensate_counts r,
    Cy_SysClk_IloStopMeasurement,
    Cy_SysPm_CpuEnterDeepSleep,
    Cy_SysClk_IloStartMeasurement ]

/-- Statements one pass of the `for (;;)` loop executes from state `s`
(interrupt mode): the branch is taken when the flag is observed set. -/
def main_loop_body (hw : Periph) (r : IloOutcome) (s : State) : List (State → State) :=
  if s.interrupt_flag = true then main_loop_service hw ++ main_loop_common r
  else main_loop_common r

/-- One pass of the `for (;;)` loop of `main`. -/
def main_loop_iteration (hw : Periph) (r : IloOutcome) (s : State) : State :=
  runSteps (main_loop_body hw r s) s

/-! ## Runs -/

/-- What happens next: the handler runs, or the loop makes one pass in which the
compensation attempt has the given outcome. -/
inductive Event
  | expiry
  | iteration (r : IloOutcome)
  deriving DecidableEq, Repr

def step (hw : Periph) (s : State) : Event → State
  | .expiry => wdt_isr s
  | .iteration r => main_loop_iteration hw r s

def run (hw : Periph) (evs : List Event) (s : State) : State :=
  evs.foldl (step hw) s

/-- One watchdog expiry: the handler, then the loop pass that services it and
any number of further passes before the next expiry. -/
structure Expiry where
  servicing : IloOutcome
  idle : List IloOutcome

def Expiry.events (e : Expiry) : List Event :=
  .expiry :: .iteration e.servicing :: e.idle.map .iteration

/-- Compensation outcomes of a run, in the order they occur. -/
def outcomes : List Event → List IloOutcome
  | [] => []
  | .expiry :: evs => outcomes evs
  | .iteration r :: evs => r :: outcomes evs

/-- Spec-side notion, following the words of the specification: the tick count
returned by the most recent successful compensation of a history (oldest first), if
any compensation has succeeded.  It is compared with what the code caches. -/
def mostRecentSuccess : List IloOutcome → Option Nat
  | [] => none
  | r :: rs =>
    match mostRecentSuccess rs with
    | some c => some c
    | none =>
      match r with
      | .success cycles => some (cycles % U32)
      | .failure _ _ => none

/-- Calls that follow the first call satisfying `p` in a call sequence. -/
def callsAfter (p : Call → Bool) (l : List Call) : List Call :=
  (l.dropWhile (fun c => !p c)).drop 1

/-- Events of a sequence of expiries. -/
def expiryRun : List Expiry → List Event
  | [] => []
  | e :: es => e.events ++ expiryRun es

/-- Value of `ilo_compensated_counts` after a compensation attempt with outcome `r`
that found the value `old`. -/
def cachedAfter (r : IloOutcome) (old : Nat) : Nat :=
  match r with
  | .success cycles => cycles % U32
  | .failure _ _ => old

/-- Value written to the match register by a servicing pass from state `s`. -/
def nextMatch (s : State) : Nat :=
  (s.wdtMatch + s.ilo_compensated_counts) % U16

/-- A state in which the handler has just run: flag set, source masked, with the
given counter, match register and cached tick count. -/
def pendingState (counter m c : Nat) : State :=
  { wdt_isr (bootState counter m) with ilo_compensated_counts := c }

/-- Calls made by one loop pass from `s`: what the pass appended to the log. -/
def iterationCalls (hw : Periph) (r : IloOutcome) (s : State) : List Call :=
  (main_loop_iteration hw r s).log.drop s.log.length

/-- Flag and mask bit of a state, for tabulating program points. -/
def flagAndMask (s : State) : Bool × Bool :=
  (s.interrupt_flag, s.wdtMasked)

/-- State in which `wdt_init` leaves a working peripheral, started from the boot
state with zeroed registers, when the first compensation has outcome `r0` (the boot
state itself if `wdt_init` halts). -/
def initState (r0 : IloOutcome) : State :=
  (wdt_init workingPeriph r0 (bootState 0 0)).getD (bootState 0 0)

/-- Scans a call sequence and checks that every `Cy_WDT_SetMatch` after the first
is preceded, since the previous `Cy_WDT_SetMatch`, by a `Cy_WDT_UnmaskInterrupt`;
`seen` tells whether an unmask is already on record for the next one. -/
def unmaskedBetween : Bool → List Call → Bool
  | _, [] => true
  | seen, c :: cs =>
    if c.isSetMatch then seen && unmaskedBetween false cs
    else if c.isUnmask then unmaskedBetween true cs
    else unmaskedBetween seen cs

/-- A call sequence with neither an unmask nor a match write. -/
def Quiet (l : List Call) : Prop :=
  ∀ c ∈ l, c.isUnmask = false ∧ c.isSetMatch = false

/-! ## Basic facts about the statements -/

theorem status_success_iff (r : IloOutcome) :
    r.status = .CY_SYSCLK_SUCCESS ↔ ∃ cycles, r = .success cycles := by
  cases r with
  | success c => simp [IloOutcome.status]
  | failure e st => cases e <;> simp [IloOutcome.status]

theorem compensate_counts_success (cycles : Nat) (s : State) :
    compensate_counts (.success cycles) s =
      { s with temp_ilo_counts := cycles % U32,
               ilo_compensated_counts := cycles % U32,
               log := s.log ++ [.Cy_SysClk_IloCompensate DESIRED_WDT_INTERVAL] } := by
  simp [compensate_counts, Cy_SysClk_IloCompensate, IloOutcome.status, IloOutcome.target,
    record, U32]

theorem compensate_counts_failure (e : IloError) (st : Option Nat) (s : State) :
    compensate_counts (.failure e st) s =
      { s with temp_ilo_counts := (IloOutcome.failure e st).target s.temp_ilo_counts,
               log := s.log ++ [.Cy_SysClk_IloCompensate DESIRED_WDT_INTERVAL] } := by
  cases e <;> simp [compensate_counts, Cy_SysClk_IloCompensate, IloOutcome.status, record]

theorem compensate_counts_cached (r : IloOutcome) (s : State) :
    (compensate_counts r s).ilo_compensated_counts = cachedAfter r s.ilo_compensated_counts := by
  cases r with
  | success c => simp [compensate_counts_success, cachedAfter]
  | failure e st => simp [compensate_counts_failure, cachedAfter]

theorem compensate_counts_frame (r : IloOutcome) (s : State) :
    (compensate_counts r s).interrupt_flag = s.interrupt_flag ∧
    (compensate_counts r s).wdtMatch = s.wdtMatch ∧
    (compensate_counts r s).wdtMasked = s.wdtMasked ∧
    (compensate_counts r s).wdtCounter = s.wdtCounter ∧
    (compensate_counts r s).log = s.log ++ [.Cy_SysClk_IloCompensate DESIRED_WDT_INTERVAL] := by
  cases r with
  | success c => simp [compensate_counts_success]
  | failure e st => simp [compensate_counts_failure]

theorem cast_sum (m c : Nat) : ((m % U16 + c) % U32) % U16 = (m + c) % U16 := by
  have h : U32 = U16 * U16 := by norm_num [U16, U32]
  rw [h, Nat.mod_mul_right_mod, Nat.mod_add_mod]

/-- Effect of a pass that finds the flag clear. -/
theorem iteration_idle (hw : Periph) (r : IloOutcome) (s : State)
    (h : s.interrupt_flag = false) :
    (main_loop_iteration hw r s).interrupt_flag = false ∧
    (main_loop_iteration hw r s).wdtMasked = s.wdtMasked ∧
    (main_loop_iteration hw r s).wdtMatch = s.wdtMatch ∧
    (main_loop_iteration hw r s).ilo_compensated_counts
      = cachedAfter r s.ilo_compensated_counts ∧
    (main_loop_iteration hw r s).log = s.log ++
      [.Cy_SysClk_IloCompensate DESIRED_WDT_INTERVAL, .Cy_SysClk_IloStopMeasurement,
       .Cy_SysPm_CpuEnterDeepSleep, .Cy_SysClk_IloStartMeasurement] := by
  have hf := compensate_counts_frame r s
  have hc := compensate_counts_cached r s
  simp [main_loop_iteration, main_loop_body, main_loop_common, runSteps, h,
    Cy_SysClk_IloStopMeasurement, Cy_SysPm_CpuEnterDeepSleep, Cy_SysClk_IloStartMeasurement,
    record, hf, hc]

/-- Effect of a pass that finds the flag set. -/
theorem iteration_service (hw : Periph) (r : IloOutcome) (s : State)
    (h : s.interrupt_flag = true) :
    (main_loop_iteration hw r s).interrupt_flag = false ∧
    (main_loop_iteration hw r s).wdtMasked = false ∧
    (main_loop_iteration hw r s).wdtMatch = hw.latchMatch (nextMatch s) ∧
    (main_loop_iteration hw r s).ilo_compensated_counts
      = cachedAfter r s.ilo_compensated_counts ∧
    (main_loop_iteration hw r s).log = s.log ++
      [.Cy_WDT_ClearInterrupt, .Cy_WDT_UnmaskInterrupt, .Cy_WDT_SetMatch (nextMatch s),
       .Cy_GPIO_Inv,
       .Cy_SysClk_IloCompensate DESIRED_WDT_INTERVAL, .Cy_SysClk_IloStopMeasurement,
       .Cy_SysPm_CpuEnterDeepSleep, .Cy_SysClk_IloStartMeasurement] := by
  have hm : ∀ m c : Nat, (((m % U16 + c) % U32) % U16) % U16 = (m + c) % U16 := by
    intro m c
    rw [Nat.mod_mod, cast_sum]
  simp only [main_loop_iteration, main_loop_body, main_loop_service, main_loop_common,
    runSteps, h, if_true, List.cons_append, List.nil_append, List.foldl_cons, List.foldl_nil]
  simp [Cy_SysClk_IloStopMeasurement, Cy_SysPm_CpuEnterDeepSleep,
    Cy_SysClk_IloStartMeasurement, Cy_WDT_ClearInterrupt, Cy_WDT_UnmaskInterrupt,
    Cy_WDT_SetMatch, Cy_WDT_GetMatch, Cy_GPIO_Inv, record, compensate_counts_frame,
    compensate_counts_cached, hm, nextMatch]

theorem wdt_isr_eq (s : State) :
    wdt_isr s = { s with wdtMasked := true, interrupt_flag := true,
                         log := s.log ++ [.Cy_WDT_MaskInterrupt] } := by
  simp [wdt_isr, wdt_isr_body, runSteps, Cy_WDT_MaskInterrupt, record]

/-- State reached by `wdt_init` just before the match register is written. -/
theorem wdt_init_step2_3_frame (hw : Periph) (r : IloOutcome) (s : State) :
    (wdt_init_step2_3 r (Cy_WDT_SetIgnoreBits hw IGNORE_BITS s)).ilo_compensated_counts
      = cachedAfter r s.ilo_compensated_counts ∧
    (wdt_init_step2_3 r (Cy_WDT_SetIgnoreBits hw IGNORE_BITS s)).interrupt_flag
      = s.interrupt_flag := by
  simp [wdt_init_step2_3, compensate_counts_cached, compensate_counts_frame,
    Cy_SysClk_IloStartMeasurement, Cy_SysLib_Delay, Cy_SysClk_IloEnable,
    Cy_WDT_ClearInterrupt, Cy_WDT_SetIgnoreBits, record]

/-- When `wdt_init` returns, and what it leaves behind. -/
theorem wdt_init_eq_some (hw : Periph) (r : IloOutcome) (s s1 : State) :
    wdt_init hw r s = some s1 ↔
      (hw.latchIgnoreBits IGNORE_BITS % U32 = IGNORE_BITS ∧
       hw.latchMatch (cachedAfter r s.ilo_compensated_counts % U16) % U16
         = cachedAfter r s.ilo_compensated_counts ∧
       hw.sysIntInit = .CY_SYSINT_SUCCESS ∧
       hw.latchEnable = true) ∧
      s1 = Cy_WDT_Enable hw (Cy_WDT_UnmaskInterrupt (NVIC_EnableIRQ
            (Cy_SysInt_Init hw (Cy_WDT_SetMatch hw (cachedAfter r s.ilo_compensated_counts)
              (wdt_init_step2_3 r (Cy_WDT_SetIgnoreBits hw IGNORE_BITS s)))).2)) := by
  have hf := (wdt_init_step2_3_frame hw r s).1
  by_cases h1 : hw.latchIgnoreBits IGNORE_BITS % U32 = IGNORE_BITS
  · by_cases h2 : hw.latchMatch (cachedAfter r s.ilo_compensated_counts % U16) % U16
        = cachedAfter r s.ilo_compensated_counts
    · by_cases h3 : hw.sysIntInit = .CY_SYSINT_SUCCESS
      · by_cases h4 : hw.latchEnable = true
        · have e1 : wdt_init_step1 hw s = some (Cy_WDT_SetIgnoreBits hw IGNORE_BITS s) := by
            simp [wdt_init_step1, CY_ASSERT, Cy_WDT_GetIgnoreBits, Cy_WDT_SetIgnoreBits,
              record, h1]
          simp [wdt_init, e1, WDT_DEMO, wdt_init_step4, wdt_init_step5, wdt_init_step6,
            CY_ASSERT, Cy_WDT_GetMatch, Cy_WDT_SetMatch, Cy_SysInt_Init, Cy_WDT_IsEnabled,
            Cy_WDT_Enable, Cy_WDT_UnmaskInterrupt, NVIC_EnableIRQ, record, hf, h1, h2, h3, h4,
            eq_comm]
        · have e1 : wdt_init_step1 hw s = some (Cy_WDT_SetIgnoreBits hw IGNORE_BITS s) := by
            simp [wdt_init_step1, CY_ASSERT, Cy_WDT_GetIgnoreBits, Cy_WDT_SetIgnoreBits,
              record, h1]
          simp [wdt_init, e1, WDT_DEMO, wdt_init_step4, wdt_init_step5, wdt_init_step6,
            CY_ASSERT, Cy_WDT_GetMatch, Cy_WDT_SetMatch, Cy_SysInt_Init, Cy_WDT_IsEnabled,
            Cy_WDT_Enable, Cy_WDT_UnmaskInterrupt, NVIC_EnableIRQ, record, hf, h1, h2, h3, h4]
      · have e1 : wdt_init_step1 hw s = some (Cy_WDT_SetIgnoreBits hw IGNORE_BITS s) := by
          simp [wdt_init_step1, CY_ASSERT, Cy_WDT_GetIgnoreBits, Cy_WDT_SetIgnoreBits,
            record, h1]
        simp [wdt_init, e1, WDT_DEMO, wdt_init_step4, wdt_init_step5,
          CY_ASSERT, Cy_WDT_GetMatch, Cy_WDT_SetMatch, Cy_SysInt_Init, record, hf, h1, h2, h3]
    · have e1 : wdt_init_step1 hw s = some (Cy_WDT_SetIgnoreBits hw IGNORE_BITS s) := by
        simp [wdt_init_step1, CY_ASSERT, Cy_WDT_GetIgnoreBits, Cy_WDT_SetIgnoreBits,
          record, h1]
      simp [wdt_init, e1, WDT_DEMO, wdt_init_step4, CY_ASSERT, Cy_WDT_GetMatch,
        Cy_WDT_SetMatch, record, hf, h1, h2]
  · simp [wdt_init, wdt_init_step1, CY_ASSERT, Cy_WDT_GetIgnoreBits, Cy_WDT_SetIgnoreBits,
      record, h1]

theorem wdt_init_isSome (hw : Periph) (r : IloOutcome) (s : State) :
    (wdt_init hw r s).isSome = true ↔
      (hw.latchIgnoreBits IGNORE_BITS % U32 = IGNORE_BITS ∧
       hw.latchMatch (cachedAfter r s.ilo_compensated_counts % U16) % U16
         = cachedAfter r s.ilo_compensated_counts ∧
       hw.sysIntInit = .CY_SYSINT_SUCCESS ∧
       hw.latchEnable = true) := by
  rw [Option.isSome_iff_exists]
  constructor
  · rintro ⟨s1, h⟩
    exact ((wdt_init_eq_some hw r s s1).1 h).1
  · intro h
    exact ⟨_, (wdt_init_eq_some hw r s _).2 ⟨h, rfl⟩⟩

/-- What `wdt_init` leaves in the fields the loop depends on. -/
theorem wdt_init_result (hw : Periph) (r : IloOutcome) (s s1 : State)
    (h : wdt_init hw r s = some s1) :
    s1.ilo_compensated_counts = cachedAfter r s.ilo_compensated_counts ∧
    s1.wdtMatch = hw.latchMatch (cachedAfter r s.ilo_compensated_counts % U16) ∧
    s1.interrupt_flag = s.interrupt_flag ∧
    s1.wdtMasked = false ∧
    Call.Cy_WDT_SetMatch (cachedAfter r s.ilo_compensated_counts % U16) ∈ s1.log := by
  obtain ⟨-, rfl⟩ := (wdt_init_eq_some hw r s s1).1 h
  have hf := wdt_init_step2_3_frame hw r s
  simp [Cy_WDT_Enable, Cy_WDT_UnmaskInterrupt, NVIC_EnableIRQ, Cy_SysInt_Init,
    Cy_WDT_SetMatch, record, hf]

/-! ## Facts about runs -/

theorem mostRecentSuccess_cons_getD (r : IloOutcome) (rs : List IloOutcome) (d : Nat) :
    (mostRecentSuccess (r :: rs)).getD d = (mostRecentSuccess rs).getD (cachedAfter r d) := by
  cases hrs : mostRecentSuccess rs with
  | some c => simp [mostRecentSuccess, hrs]
  | none => cases r <;> simp [mostRecentSuccess, hrs, cachedAfter]

theorem iteration_cached (hw : Periph) (r : IloOutcome) (s : State) :
    (main_loop_iteration hw r s).ilo_compensated_counts
      = cachedAfter r s.ilo_compensated_counts := by
  cases hflag : s.interrupt_flag
  · exact (iteration_idle hw r s hflag).2.2.2.1
  · exact (iteration_service hw r s hflag).2.2.2.1

/-- The cached count after a run is the count of the most recent successful
compensation of the run, or the count the run started with if none succeeded. -/
theorem run_cached (hw : Periph) (evs : List Event) (s : State) :
    (run hw evs s).ilo_compensated_counts
      = (mostRecentSuccess (outcomes evs)).getD s.ilo_compensated_counts := by
  induction evs generalizing s with
  | nil => simp [run, outcomes, mostRecentSuccess]
  | cons e es ih =>
    have hrun : run hw (e :: es) s = run hw es (step hw s e) := by simp [run]
    rw [hrun, ih]
    cases e with
    | expiry => simp [step, outcomes, wdt_isr_eq]
    | iteration r =>
      simp only [step, outcomes]
      rw [mostRecentSuccess_cons_getD, iteration_cached]

theorem run_append (hw : Periph) (e1 e2 : List Event) (s : State) :
    run hw (e1 ++ e2) s = run hw e2 (run hw e1 s) := by
  simp [run, List.foldl_append]

theorem unmaskedBetween_quiet (seen : Bool) (q l : List Call) (hq : Quiet q) :
    unmaskedBetween seen (q ++ l) = unmaskedBetween seen l := by
  induction q with
  | nil => rfl
  | cons c cs ih =>
    have hc := hq c (List.mem_cons_self _ _)
    have hcs : Quiet cs := fun x hx => hq x (List.mem_cons_of_mem _ hx)
    simp [unmaskedBetween, hc.1, hc.2, ih hcs]

theorem unmaskedBetween_false (mid post : List Call) (v : Nat)
    (h : unmaskedBetween false (mid ++ Call.Cy_WDT_SetMatch v :: post) = true) :
    Call.Cy_WDT_UnmaskInterrupt ∈ mid := by
  induction mid with
  | nil => simp [unmaskedBetween, Call.isSetMatch] at h
  | cons c cs ih =>
    cases c <;>
      simp_all [unmaskedBetween, Call.isSetMatch, Call.isUnmask]

/-- What the scan establishes: between two match writes there is an unmask. -/
theorem unmaskedBetween_sound (seen : Bool) (l pre mid post : List Call) (v1 v2 : Nat)
    (h : unmaskedBetween seen l = true)
    (hl : l = pre ++ Call.Cy_WDT_SetMatch v1 :: (mid ++ Call.Cy_WDT_SetMatch v2 :: post)) :
    Call.Cy_WDT_UnmaskInterrupt ∈ mid := by
  subst hl
  induction pre generalizing seen with
  | nil =>
    simp only [List.nil_append, unmaskedBetween, Call.isSetMatch, if_true,
      Bool.and_eq_true] at h
    exact unmaskedBetween_false mid post v2 h.2
  | cons c cs ih =>
    simp only [List.cons_append, unmaskedBetween] at h
    split at h
    · simp only [Bool.and_eq_true] at h
      exact ih false h.2
    · split at h
      · exact ih true h
      · exact ih seen h

/-- Passes that find the flag clear keep it clear, keep the mask bit and make
neither an unmask nor a match write. -/
theorem run_idle (hw : Periph) (rs : List IloOutcome) (s : State)
    (h : s.interrupt_flag = false) :
    (run hw (rs.map .iteration) s).interrupt_flag = false ∧
    (run hw (rs.map .iteration) s).wdtMasked = s.wdtMasked ∧
    ∃ q, (run hw (rs.map .iteration) s).log = s.log ++ q ∧ Quiet q := by
  induction rs generalizing s with
  | nil => exact ⟨h, rfl, [], by simp [run], by simp [Quiet]⟩
  | cons r rs ih =>
    have hi := iteration_idle hw r s h
    have hrun : run hw ((r :: rs).map .iteration) s
        = run hw (rs.map .iteration) (main_loop_iteration hw r s) := by
      simp [run, step]
    obtain ⟨hf, hm, q, hq, hquiet⟩ := ih (main_loop_iteration hw r s) hi.1
    rw [hrun]
    refine ⟨hf, hm.trans hi.2.1,
      [.Cy_SysClk_IloCompensate DESIRED_WDT_INTERVAL, .Cy_SysClk_IloStopMeasurement,
       .Cy_SysPm_CpuEnterDeepSleep, .Cy_SysClk_IloStartMeasurement] ++ q, ?_, ?_⟩
    · rw [hq, hi.2.2.2.2, List.append_assoc]
    · intro c hc
      rcases List.mem_append.1 hc with hc | hc
      · simp only [List.mem_cons, List.mem_singleton, List.not_mem_nil, or_false] at hc
        rcases hc with rfl | rfl | rfl | rfl <;> simp [Call.isUnmask, Call.isSetMatch]
      · exact hquiet c hc

/-- One expiry: the handler masks, the servicing pass
clears, unmasks and writes the match register once, and nothing after that in the
expiry unmasks or writes the match register. -/
theorem run_expiry (hw : Periph) (e : Expiry) (s : State) :
    (run hw e.events s).interrupt_flag = false ∧
    (run hw e.events s).wdtMasked = false ∧
    ∃ v q, (run hw e.events s).log = s.log ++
        (.Cy_WDT_MaskInterrupt :: .Cy_WDT_ClearInterrupt :: .Cy_WDT_UnmaskInterrupt ::
          .Cy_WDT_SetMatch v :: q) ∧ Quiet q := by
  have hflag : (wdt_isr s).interrupt_flag = true := by simp [wdt_isr_eq]
  have hs := iteration_service hw e.servicing (wdt_isr s) hflag
  have hrun : run hw e.events s
      = run hw (e.idle.map .iteration) (main_loop_iteration hw e.servicing (wdt_isr s)) := by
    simp [run, step, Expiry.events]
  obtain ⟨hf, hm, q, hq, hquiet⟩ :=
    run_idle hw e.idle (main_loop_iteration hw e.servicing (wdt_isr s)) hs.1
  rw [hrun]
  refine ⟨hf, hm.trans hs.2.1, nextMatch (wdt_isr s),
    [.Cy_GPIO_Inv, .Cy_SysClk_IloCompensate DESIRED_WDT_INTERVAL,
      .Cy_SysClk_IloStopMeasurement, .Cy_SysPm_CpuEnterDeepSleep,
      .Cy_SysClk_IloStartMeasurement] ++ q, ?_, ?_⟩
  · rw [hq, hs.2.2.2.2]
    simp [wdt_isr_eq]
  · intro c hc
    rcases List.mem_append.1 hc with hc | hc
    · simp only [List.mem_cons, List.mem_singleton, List.not_mem_nil, or_false] at hc
      rcases hc with rfl | rfl | rfl | rfl | rfl <;> simp [Call.isUnmask, Call.isSetMatch]
    · exact hquiet c hc

theorem countP_quiet (q : List Call) (hq : Quiet q) : q.countP Call.isUnmask = 0 := by
  rw [List.countP_eq_zero]
  intro c hc
  simp [(hq c hc).1]

/-- A sequence of expiries. -/
theorem run_expiries (hw : Periph) (es : List Expiry) (s : State) :
    (es ≠ [] → (run hw (expiryRun es) s).interrupt_flag = false ∧
      (run hw (expiryRun es) s).wdtMasked = false) ∧
    ∃ l, (run hw (expiryRun es) s).log = s.log ++ l ∧
      l.countP Call.isUnmask = es.length ∧
      ∀ seen, unmaskedBetween seen l = true := by
  induction es generalizing s with
  | nil => exact ⟨fun hne => absurd rfl hne, [], by simp [run, expiryRun], rfl, fun _ => rfl⟩
  | cons e es ih =>
    obtain ⟨hf1, hm1, v, q, hlog1, hq⟩ := run_expiry hw e s
    obtain ⟨hfm, l, hlog, hcount, hscan⟩ := ih (run hw e.events s)
    have hrun : run hw (expiryRun (e :: es)) s = run hw (expiryRun es) (run hw e.events s) := by
      simp [expiryRun, run_append]
    rw [hrun]
    refine ⟨fun _ => ?_,
      (.Cy_WDT_MaskInterrupt :: .Cy_WDT_ClearInterrupt :: .Cy_WDT_UnmaskInterrupt ::
        .Cy_WDT_SetMatch v :: q) ++ l, ?_, ?_, ?_⟩
    · cases es with
      | nil => simpa [expiryRun, run] using And.intro hf1 hm1
      | cons e2 es2 => exact hfm (by simp)
    · rw [hlog, hlog1, List.append_assoc]
    · simp [List.countP_append, List.countP_cons, Call.isUnmask, countP_quiet q hq, hcount]
    · intro seen
      have hscanq := unmaskedBetween_quiet false q l hq
      simp [unmaskedBetween, Call.isSetMatch, Call.isUnmask, hscanq, hscan]

/-! ## Claims about one loop pass and the handler -/

/-- C1: a pass of the loop that observes `interrupt_flag` set leaves the match
register equal to `(m + c) mod 2^16`, where `m` is the match register and `c` the
cached tick count on entry to the pass, whatever this pass's compensation does and
also when `m + c` exceeds 16 or 32 bits; a pass that observes the flag clear leaves
the match register unchanged. -/
theorem C1_match_advance (r : IloOutcome) (s : State) :
    (s.interrupt_flag = true →
      (main_loop_iteration workingPeriph r s).wdtMatch
        = (s.wdtMatch + s.ilo_compensated_counts) % 2 ^ 16) ∧
    (s.interrupt_flag = false →
      (main_loop_iteration workingPeriph r s).wdtMatch = s.wdtMatch) := by
  constructor
  · intro h
    have hs := (iteration_service workingPeriph r s h).2.2.1
    rw [hs]
    simp [workingPeriph, nextMatch, U16]
  · intro h
    exact (iteration_idle workingPeriph r s h).2.2.1

/-- C1 at inputs where the sum overflows both 16 and 32 bits (flag set), and at a
state with the flag clear. -/
theorem C1_match_advance_witness :
    (main_loop_iteration workingPeriph (.success 7) (pendingState 0 65535 4294967295)).wdtMatch
        = (65535 + 4294967295) % 2 ^ 16 ∧
    (main_loop_iteration workingPeriph (.success 7) (bootState 0 123)).wdtMatch = 123 :=
  ⟨(C1_match_advance (.success 7) (pendingState 0 65535 4294967295)).1 rfl,
   (C1_match_advance (.success 7) (bootState 0 123)).2 rfl⟩

/-- C2: for the compensation attempt of `wdt_init` and of the loop alike, a status
other than `CY_SYSCLK_SUCCESS` leaves `ilo_compensated_counts` as it was, whatever
the driver stored in `temp_ilo_counts`; on `CY_SYSCLK_SUCCESS` it becomes the tick
count the driver produced (the value then held by `temp_ilo_counts`). -/
theorem C2_compensation_attempt (hw : Periph) (r : IloOutcome) (s : State) :
    (r.status ≠ .CY_SYSCLK_SUCCESS →
      (compensate_counts r s).ilo_compensated_counts = s.ilo_compensated_counts ∧
      (main_loop_iteration hw r s).ilo_compensated_counts = s.ilo_compensated_counts ∧
      ∀ s1, wdt_init hw r s = some s1 →
        s1.ilo_compensated_counts = s.ilo_compensated_counts) ∧
    (r.status = .CY_SYSCLK_SUCCESS →
      ∃ cycles, r = .success cycles ∧
        (compensate_counts r s).temp_ilo_counts = cycles % 2 ^ 32 ∧
        (compensate_counts r s).ilo_compensated_counts = cycles % 2 ^ 32 ∧
        (main_loop_iteration hw r s).ilo_compensated_counts = cycles % 2 ^ 32 ∧
        ∀ s1, wdt_init hw r s = some s1 → s1.ilo_compensated_counts = cycles % 2 ^ 32) := by
  have hloop := iteration_cached hw r s
  have hcomp := compensate_counts_cached r s
  constructor
  · intro hne
    have hkeep : cachedAfter r s.ilo_compensated_counts = s.ilo_compensated_counts := by
      cases r with
      | success c => simp [IloOutcome.status] at hne
      | failure e st => rfl
    refine ⟨hcomp.trans hkeep, hloop.trans hkeep, ?_⟩
    intro s1 h1
    exact ((wdt_init_result hw r s s1 h1).1).trans hkeep
  · intro heq
    obtain ⟨c, rfl⟩ := (status_success_iff r).1 heq
    have hnew : cachedAfter (.success c) s.ilo_compensated_counts = c % 2 ^ 32 := by
      simp [cachedAfter, U32]
    refine ⟨c, rfl, ?_, hcomp.trans hnew, hloop.trans hnew, ?_⟩
    · simp [compensate_counts_success, U32]
    · intro s1 h1
      exact ((wdt_init_result hw (.success c) s s1 h1).1).trans hnew

/-- C2 at a failed attempt that stores 99 in `temp_ilo_counts` while 40000 ticks
are cached: the compensation statement, the loop pass and `wdt_init` all keep
40000. -/
theorem C2_compensation_attempt_witness :
    (IloOutcome.failure .STARTED (some 99)).status ≠ .CY_SYSCLK_SUCCESS ∧
    (compensate_counts (.failure .STARTED (some 99))
        (pendingState 0 5 40000)).temp_ilo_counts = 99 ∧
    (compensate_counts (.failure .STARTED (some 99))
        (pendingState 0 5 40000)).ilo_compensated_counts = 40000 ∧
    (main_loop_iteration workingPeriph (.failure .STARTED (some 99))
        (pendingState 0 5 40000)).ilo_compensated_counts = 40000 :=
  ⟨by decide, by decide,
   ((C2_compensation_attempt workingPeriph (.failure .STARTED (some 99))
      (pendingState 0 5 40000)).1 (by decide)).1,
   ((C2_compensation_attempt workingPeriph (.failure .STARTED (some 99))
      (pendingState 0 5 40000)).1 (by decide)).2.1⟩

/-- C8: `wdt_isr` masks the watchdog interrupt source and sets `interrupt_flag`, and
changes nothing else: its only driver call is `Cy_WDT_MaskInterrupt` (so no
compensation call), and the match register, both tick counts, the hardware
interrupt status and the enabled bit are as before. -/
theorem C8_wdt_isr_frame (s : State) :
    wdt_isr s = { s with wdtMasked := true, interrupt_flag := true,
                         log := s.log ++ [.Cy_WDT_MaskInterrupt] } ∧
    (wdt_isr s).wdtMasked = true ∧
    (wdt_isr s).interrupt_flag = true ∧
    (wdt_isr s).wdtMatch = s.wdtMatch ∧
    (wdt_isr s).ilo_compensated_counts = s.ilo_compensated_counts ∧
    (wdt_isr s).temp_ilo_counts = s.temp_ilo_counts ∧
    (wdt_isr s).wdtIntrStatus = s.wdtIntrStatus ∧
    (wdt_isr s).wdtEnabled = s.wdtEnabled ∧
    (∀ d, Call.Cy_SysClk_IloCompensate d ∉ (wdt_isr s).log.drop s.log.length) := by
  simp [wdt_isr_eq]

/-- C7, as stated, fails: with the counter at 40002, the match register at 40000
and 40000 cached ticks, the servicing pass writes `(40000 + 40000) mod 2^16 = 14464`
to the match register, not `(40002 + 40000) mod 2^16 = 14466`. -/
theorem C7_counterexample :
    (pendingState 40002 40000 40000).interrupt_flag = true ∧
    (pendingState 40002 40000 40000).wdtCounter = 40002 ∧
    (main_loop_iteration workingPeriph (.success 40000)
        (pendingState 40002 40000 40000)).wdtMatch = 14464 ∧
    (main_loop_iteration workingPeriph (.success 40000)
        (pendingState 40002 40000 40000)).wdtMatch
      ≠ ((pendingState 40002 40000 40000).wdtCounter
          + (pendingState 40002 40000 40000).ilo_compensated_counts) % 2 ^ 16 := by
  have hm : (main_loop_iteration workingPeriph (.success 40000)
      (pendingState 40002 40000 40000)).wdtMatch = 14464 := by
    rw [(iteration_service workingPeriph (.success 40000)
      (pendingState 40002 40000 40000) rfl).2.2.1]
    decide
  refine ⟨rfl, rfl, hm, ?_⟩
  rw [hm]
  decide

/-- C7 (amended): the servicing pass sets the match register to
`(previousMatch + compensatedTickCount) mod 2^16`, where `previousMatch` is the
value `Cy_WDT_GetMatch` returns; the result is the same for every value `k` of the
watchdog counter, which the pass does not read. -/
theorem C7_match_from_previous_match (k m c : Nat) (r : IloOutcome) (s : State) :
    (main_loop_iteration workingPeriph r
        { s with wdtCounter := k, wdtMatch := m, ilo_compensated_counts := c,
                 interrupt_flag := true }).wdtMatch = (m + c) % 2 ^ 16 := by
  rw [(iteration_service workingPeriph r _ rfl).2.2.1]
  simp [workingPeriph, nextMatch, U16]

/-- C6, as stated, fails: in a servicing pass the calls are, in order,
`Cy_WDT_ClearInterrupt`, `Cy_WDT_UnmaskInterrupt`, `Cy_WDT_SetMatch`, ...; no
`Cy_WDT_UnmaskInterrupt` follows the `Cy_WDT_SetMatch`. -/
theorem C6_counterexample :
    (pendingState 0 10 3).interrupt_flag = true ∧
    iterationCalls workingPeriph (.success 3) (pendingState 0 10 3)
      = [.Cy_WDT_ClearInterrupt, .Cy_WDT_UnmaskInterrupt, .Cy_WDT_SetMatch 13,
         .Cy_GPIO_Inv, .Cy_SysClk_IloCompensate 1000000, .Cy_SysClk_IloStopMeasurement,
         .Cy_SysPm_CpuEnterDeepSleep, .Cy_SysClk_IloStartMeasurement] ∧
    Call.Cy_WDT_UnmaskInterrupt ∉
      callsAfter Call.isSetMatch
        (iterationCalls workingPeriph (.success 3) (pendingState 0 10 3)) := by
  have hc : iterationCalls workingPeriph (.success 3) (pendingState 0 10 3)
      = [.Cy_WDT_ClearInterrupt, .Cy_WDT_UnmaskInterrupt, .Cy_WDT_SetMatch 13,
         .Cy_GPIO_Inv, .Cy_SysClk_IloCompensate 1000000, .Cy_SysClk_IloStopMeasurement,
         .Cy_SysPm_CpuEnterDeepSleep, .Cy_SysClk_IloStartMeasurement] := by
    rw [iterationCalls, (iteration_service workingPeriph (.success 3)
      (pendingState 0 10 3) rfl).2.2.2.2]
    simp
    decide
  refine ⟨rfl, hc, ?_⟩
  rw [hc]
  decide

/-- C6 (amended): in every servicing pass the interrupt source is unmasked before
the match register is advanced: the calls of the pass are `Cy_WDT_ClearInterrupt`,
`Cy_WDT_UnmaskInterrupt`, `Cy_WDT_SetMatch`, `Cy_GPIO_Inv`, then the compensation and
sleep calls, so `Cy_WDT_SetMatch` follows `Cy_WDT_UnmaskInterrupt` and no unmask
follows the `Cy_WDT_SetMatch`. -/
theorem C6_unmask_before_set_match (hw : Periph) (r : IloOutcome) (s : State)
    (h : s.interrupt_flag = true) :
    iterationCalls hw r s
      = [.Cy_WDT_ClearInterrupt, .Cy_WDT_UnmaskInterrupt,
         .Cy_WDT_SetMatch ((s.wdtMatch + s.ilo_compensated_counts) % 2 ^ 16),
         .Cy_GPIO_Inv, .Cy_SysClk_IloCompensate DESIRED_WDT_INTERVAL,
         .Cy_SysClk_IloStopMeasurement, .Cy_SysPm_CpuEnterDeepSleep,
         .Cy_SysClk_IloStartMeasurement] ∧
    Call.Cy_WDT_SetMatch ((s.wdtMatch + s.ilo_compensated_counts) % 2 ^ 16) ∈
      callsAfter Call.isUnmask (iterationCalls hw r s) ∧
    Call.Cy_WDT_UnmaskInterrupt ∉ callsAfter Call.isSetMatch (iterationCalls hw r s) := by
  have hc : iterationCalls hw r s
      = [.Cy_WDT_ClearInterrupt, .Cy_WDT_UnmaskInterrupt,
         .Cy_WDT_SetMatch ((s.wdtMatch + s.ilo_compensated_counts) % 2 ^ 16),
         .Cy_GPIO_Inv, .Cy_SysClk_IloCompensate DESIRED_WDT_INTERVAL,
         .Cy_SysClk_IloStopMeasurement, .Cy_SysPm_CpuEnterDeepSleep,
         .Cy_SysClk_IloStartMeasurement] := by
    rw [iterationCalls, (iteration_service hw r s h).2.2.2.2]
    simp [nextMatch, U16]
  refine ⟨hc, ?_, ?_⟩
  · rw [hc]
    simp [callsAfter, List.dropWhile, Call.isUnmask]
  · rw [hc]
    simp [callsAfter, List.dropWhile, Call.isSetMatch]

/-- C6 (amended) at a pending state with match 10 and 3 cached ticks. -/
theorem C6_unmask_before_set_match_witness :
    (pendingState 0 10 3).interrupt_flag = true ∧
    Call.Cy_WDT_SetMatch (((pendingState 0 10 3).wdtMatch
        + (pendingState 0 10 3).ilo_compensated_counts) % 2 ^ 16) ∈
      callsAfter Call.isUnmask
        (iterationCalls workingPeriph (.failure .STARTED none) (pendingState 0 10 3)) :=
  ⟨rfl, (C6_unmask_before_set_match workingPeriph (.failure .STARTED none)
      (pendingState 0 10 3) rfl).2.1⟩

/-- C5, as stated, fails: in the servicing pass that follows the handler, the
program point after `Cy_WDT_UnmaskInterrupt()` and before `interrupt_flag = false`
has the flag still set and the source unmasked. -/
theorem C5_counterexample :
    flagAndMask (wdt_isr (bootState 0 10)) = (true, true) ∧
    ((programPoints (main_loop_body workingPeriph (.success 3) (wdt_isr (bootState 0 10)))
        (wdt_isr (bootState 0 10))).map flagAndMask).take 4
      = [(true, true), (true, true), (true, false), (false, false)] := by
  decide

/-- C5 (amended): the source is masked at every program point from `wdt_isr`
setting `interrupt_flag` up to the loop's call of `Cy_WDT_UnmaskInterrupt`; the loop
unmasks before it clears the flag, so at the one program point between those two
statements the flag is set and the source is unmasked.  The tables list
(flag, masked) at the program points of the handler and at the program points of the
servicing pass up to the statement that clears the flag, which ends the window. -/
theorem C5_pending_window (hw : Periph) (r : IloOutcome) (s : State) :
    (programPoints wdt_isr_body s).map flagAndMask
      = [(s.interrupt_flag, s.wdtMasked), (s.interrupt_flag, true), (true, true)] ∧
    ((programPoints (main_loop_body hw r (wdt_isr s)) (wdt_isr s)).map flagAndMask).take 4
      = [(true, true), (true, true), (true, false), (false, false)] := by
  constructor
  · simp [programPoints, wdt_isr_body, flagAndMask, Cy_WDT_MaskInterrupt, record]
  · have hflag : (wdt_isr s).interrupt_flag = true := by simp [wdt_isr_eq]
    simp only [main_loop_body, hflag, if_true, main_loop_service, main_loop_common,
      List.cons_append, List.nil_append, programPoints, List.map_cons, List.map_nil]
    simp [flagAndMask, wdt_isr_eq, Cy_WDT_ClearInterrupt, Cy_WDT_UnmaskInterrupt, record]

/-! ## Claims about `wdt_init` -/

/-- C9: `wdt_init` reaches `CY_ASSERT(0)` whenever a readback disagrees with what
was requested and returns normally otherwise: it returns normally if and only if
`Cy_WDT_GetIgnoreBits` reads back `IGNORE_BITS`, `Cy_WDT_GetMatch` reads back the
value `ilo_compensated_counts` passed to `Cy_WDT_SetMatch`, `Cy_SysInt_Init` reports
success and `Cy_WDT_IsEnabled` reads back true after `Cy_WDT_Enable`.  A failed
first compensation alone does not make it halt. -/
theorem C9_wdt_init_returns_iff (hw : Periph) (r : IloOutcome) (s : State) :
    ((wdt_init hw r s).isSome = true ↔
      hw.latchIgnoreBits IGNORE_BITS % 2 ^ 32 = IGNORE_BITS ∧
      hw.latchMatch ((compensate_counts r s).ilo_compensated_counts % 2 ^ 16) % 2 ^ 16
        = (compensate_counts r s).ilo_compensated_counts ∧
      hw.sysIntInit = .CY_SYSINT_SUCCESS ∧
      hw.latchEnable = true) ∧
    (wdt_init hw r s = none ↔
      Cy_WDT_GetIgnoreBits (Cy_WDT_SetIgnoreBits hw IGNORE_BITS s) ≠ IGNORE_BITS ∨
      Cy_WDT_GetMatch
          (Cy_WDT_SetMatch hw (compensate_counts r s).ilo_compensated_counts
            (wdt_init_step2_3 r (Cy_WDT_SetIgnoreBits hw IGNORE_BITS s)))
        ≠ (compensate_counts r s).ilo_compensated_counts ∨
      (Cy_SysInt_Init hw s).1 ≠ .CY_SYSINT_SUCCESS ∨
      Cy_WDT_IsEnabled (Cy_WDT_Enable hw s) = false) ∧
    (∀ e st k m, (wdt_init workingPeriph (.failure e st) (bootState k m)).isSome = true) := by
  have hiff := wdt_init_isSome hw r s
  rw [← compensate_counts_cached] at hiff
  refine ⟨?_, ?_, ?_⟩
  · rw [hiff]
    simp [U16, U32]
  · have hnone : wdt_init hw r s = none ↔ ¬ (wdt_init hw r s).isSome = true := by
      cases wdt_init hw r s <;> simp
    rw [hnone, hiff]
    simp only [Cy_WDT_GetIgnoreBits, Cy_WDT_SetIgnoreBits, Cy_WDT_GetMatch, Cy_WDT_SetMatch,
      Cy_SysInt_Init, Cy_WDT_IsEnabled, Cy_WDT_Enable, record, ne_eq]
    cases hw.latchEnable <;> tauto
  · intro e st k m
    rw [wdt_init_isSome]
    simp [workingPeriph, cachedAfter, bootState, IGNORE_BITS, U16, U32]

/-- C10: when the match register stores the low 16 bits of what is written, the
match readback check of `wdt_init` passes if and only if the 32-bit
`ilo_compensated_counts` is below `2^16`; so on a working peripheral `wdt_init`
returns exactly when the first compensated count is below 65536, and after a failed
first compensation (count still 0) it writes match 0 and returns. -/
theorem C10_match_check_range (hw : Periph) (hfaith : ∀ v, hw.latchMatch v = v % 2 ^ 16)
    (r : IloOutcome) (s : State) :
    ((wdt_init_step4 hw s).isSome = true ↔ s.ilo_compensated_counts < 2 ^ 16) ∧
    ((wdt_init workingPeriph r s).isSome = true ↔
      (compensate_counts r s).ilo_compensated_counts < 2 ^ 16) ∧
    (65536 ≤ (compensate_counts r s).ilo_compensated_counts →
      wdt_init workingPeriph r s = none) ∧
    (∀ e st k m, ∃ s1,
      wdt_init workingPeriph (.failure e st) (bootState k m) = some s1 ∧
      s1.ilo_compensated_counts = 0 ∧ s1.wdtMatch = 0 ∧
      Call.Cy_WDT_SetMatch 0 ∈ s1.log) := by
  have hw2 : (wdt_init workingPeriph r s).isSome = true ↔
      (compensate_counts r s).ilo_compensated_counts < 2 ^ 16 := by
    rw [wdt_init_isSome, compensate_counts_cached]
    simp only [workingPeriph, IGNORE_BITS, U16, U32, Nat.mod_mod, and_true, true_and,
      Nat.zero_mod]
    constructor
    · intro h
      rw [← h]
      exact Nat.mod_lt _ (by norm_num)
    · intro h
      exact Nat.mod_eq_of_lt h
  refine ⟨?_, hw2, ?_, ?_⟩
  · simp only [wdt_init_step4, CY_ASSERT, Cy_WDT_GetMatch, Cy_WDT_SetMatch, record, hfaith,
      U16, Nat.mod_mod]
    constructor
    · intro h
      by_contra hlt
      have hne : s.ilo_compensated_counts % 2 ^ 16 ≠ s.ilo_compensated_counts := by
        intro heq
        exact hlt (heq ▸ Nat.mod_lt _ (by norm_num))
      simp only [ne_eq, hne, not_false_eq_true, decide_True, Bool.not_true] at h
      simp at h
    · intro h
      have heq : s.ilo_compensated_counts % 2 ^ 16 = s.ilo_compensated_counts :=
        Nat.mod_eq_of_lt h
      simp only [ne_eq, heq, not_true_eq_false, decide_False, Bool.not_false]
      simp
  · intro hge
    cases hopt : wdt_init workingPeriph r s with
    | none => rfl
    | some s1 =>
      have : (wdt_init workingPeriph r s).isSome = true := by simp [hopt]
      have hlt := hw2.1 this
      omega
  · intro e st k m
    have hsome : (wdt_init workingPeriph (.failure e st) (bootState k m)).isSome = true := by
      rw [wdt_init_isSome]
      simp [workingPeriph, cachedAfter, bootState, IGNORE_BITS, U16, U32]
    obtain ⟨s1, h1⟩ := Option.isSome_iff_exists.1 hsome
    have hres := wdt_init_result _ _ _ _ h1
    refine ⟨s1, h1, hres.1, ?_, ?_⟩
    · rw [hres.2.1]
      rfl
    · exact hres.2.2.2.2

/-- C10 on the working peripheral: a count of 65536 halts `wdt_init`. -/
theorem C10_match_check_range_witness :
    (∀ v, workingPeriph.latchMatch v = v % 2 ^ 16) ∧
    wdt_init workingPeriph (.success 65536) (bootState 0 0) = none :=
  ⟨fun _ => rfl,
   (C10_match_check_range workingPeriph (fun _ => rfl) (.success 65536) (bootState 0 0)).2.2.1
     (by decide)⟩

/-! ## Claims about runs -/

/-- C4: in a run of `N` expiries (each the handler followed by the pass that
services it and any number of further passes), the loop calls
`Cy_WDT_UnmaskInterrupt` exactly `N` times: once in each pass that observes the flag
set, never in a pass that observes it clear.  After each servicing pass the source
is unmasked and `interrupt_flag` is false, so is the state after the run, and
between any two match-register advances of the run there is an unmask. -/
theorem C4_unmask_once_per_expiry (hw : Periph) (es : List Expiry) (r : IloOutcome)
    (s : State) :
    (s.interrupt_flag = true →
      (iterationCalls hw r s).countP Call.isUnmask = 1 ∧
      (main_loop_iteration hw r s).wdtMasked = false ∧
      (main_loop_iteration hw r s).interrupt_flag = false) ∧
    (s.interrupt_flag = false →
      (iterationCalls hw r s).countP Call.isUnmask = 0 ∧
      (main_loop_iteration hw r s).wdtMasked = s.wdtMasked) ∧
    ((run hw (expiryRun es) s).log.drop s.log.length).countP Call.isUnmask = es.length ∧
    (es ≠ [] → (run hw (expiryRun es) s).interrupt_flag = false ∧
      (run hw (expiryRun es) s).wdtMasked = false) ∧
    (∀ pre mid post v1 v2,
      (run hw (expiryRun es) s).log.drop s.log.length
        = pre ++ Call.Cy_WDT_SetMatch v1 :: (mid ++ Call.Cy_WDT_SetMatch v2 :: post) →
      Call.Cy_WDT_UnmaskInterrupt ∈ mid) := by
  obtain ⟨hfm, l, hlog, hcount, hscan⟩ := run_expiries hw es s
  have hdrop : (run hw (expiryRun es) s).log.drop s.log.length = l := by
    rw [hlog]
    simp
  refine ⟨?_, ?_, ?_, hfm, ?_⟩
  · intro h
    have hs := iteration_service hw r s h
    refine ⟨?_, hs.2.1, hs.1⟩
    rw [iterationCalls, hs.2.2.2.2]
    simp [List.countP_cons, Call.isUnmask]
  · intro h
    have hi := iteration_idle hw r s h
    refine ⟨?_, hi.2.1⟩
    rw [iterationCalls, hi.2.2.2.2]
    simp [List.countP_cons, Call.isUnmask]
  · rw [hdrop, hcount]
  · intro pre mid post v1 v2 hsplit
    rw [hdrop] at hsplit
    exact unmaskedBetween_sound true l pre mid post v1 v2 (hscan true) hsplit

/-- C4 on a run of two expiries, the first followed by an extra pass: two unmask
calls, and the unmask of the second servicing pass lies between the two match
writes. -/
theorem C4_unmask_once_per_expiry_witness :
    (pendingState 0 10 3).interrupt_flag = true ∧
    (iterationCalls workingPeriph (.success 5) (pendingState 0 10 3)).countP Call.isUnmask
      = 1 ∧
    ((run workingPeriph
        (expiryRun [⟨.success 5, [.failure .STARTED none]⟩, ⟨.success 6, []⟩])
        (pendingState 0 10 3)).log.drop (pendingState 0 10 3).log.length).countP
      Call.isUnmask = 2 :=
  ⟨rfl,
   ((C4_unmask_once_per_expiry workingPeriph
      [⟨.success 5, [.failure .STARTED none]⟩, ⟨.success 6, []⟩] (.success 5)
      (pendingState 0 10 3)).1 rfl).1,
   (C4_unmask_once_per_expiry workingPeriph
      [⟨.success 5, [.failure .STARTED none]⟩, ⟨.success 6, []⟩] (.success 5)
      (pendingState 0 10 3)).2.2.1⟩

/-- C3, as stated, fails: when the compensation of `wdt_init` and that of the
first pass both fail, no compensation has succeeded, the cached count is still its
initial 0, and the pass that services the first expiry advances the match register
by 0 (it stays at 0). -/
theorem C3_counterexample :
    wdt_init workingPeriph (.failure .STARTED none) (bootState 0 0)
      = some (initState (.failure .STARTED none)) ∧
    mostRecentSuccess
      (.failure .STARTED none :: outcomes [.iteration (.failure .STARTED none), .expiry])
      = none ∧
    (run workingPeriph [.iteration (.failure .STARTED none), .expiry]
      (initState (.failure .STARTED none))).interrupt_flag = true ∧
    (run workingPeriph [.iteration (.failure .STARTED none), .expiry]
      (initState (.failure .STARTED none))).ilo_compensated_counts = 0 ∧
    (run workingPeriph [.iteration (.failure .STARTED none), .expiry]
      (initState (.failure .STARTED none))).wdtMatch = 0 ∧
    (main_loop_iteration workingPeriph (.failure .STARTED none)
      (run workingPeriph [.iteration (.failure .STARTED none), .expiry]
        (initState (.failure .STARTED none)))).wdtMatch = 0 := by
  decide

/-- C3 (amended): in every run of `wdt_init` followed by handler calls and loop
passes with arbitrary compensation outcomes, the cached count by which a servicing
pass advances the match register is the tick count of the most recent successful
compensation before it, if there is one, and the initial value 0 if no compensation
has succeeded yet; a failed attempt, whatever it stores in `temp_ilo_counts`, never
changes it. -/
theorem C3_advance_from_last_success (r0 : IloOutcome) (evs : List Event) (r : IloOutcome)
    (s0 s1 : State) (h0 : s0.ilo_compensated_counts = 0)
    (hinit : wdt_init workingPeriph r0 s0 = some s1)
    (hflag : (run workingPeriph evs s1).interrupt_flag = true) :
    (run workingPeriph evs s1).ilo_compensated_counts
      = (mostRecentSuccess (r0 :: outcomes evs)).getD 0 ∧
    (main_loop_iteration workingPeriph r (run workingPeriph evs s1)).wdtMatch
      = ((run workingPeriph evs s1).wdtMatch
          + (mostRecentSuccess (r0 :: outcomes evs)).getD 0) % 2 ^ 16 := by
  have hc : (run workingPeriph evs s1).ilo_compensated_counts
      = (mostRecentSuccess (r0 :: outcomes evs)).getD 0 := by
    rw [run_cached, mostRecentSuccess_cons_getD, (wdt_init_result _ _ _ _ hinit).1, h0]
  refine ⟨hc, ?_⟩
  rw [(iteration_service workingPeriph r _ hflag).2.2.1, ← hc]
  simp [workingPeriph, nextMatch, U16]

/-- C3 (amended) on a run whose first compensation yields 40000 ticks and whose
next one fails after storing 7 in `temp_ilo_counts`: the advance is by 40000. -/
theorem C3_advance_from_last_success_witness :
    (bootState 0 0).ilo_compensated_counts = 0 ∧
    wdt_init workingPeriph (.success 40000) (bootState 0 0)
      = some (initState (.success 40000)) ∧
    (run workingPeriph [.iteration (.failure .STARTED (some 7)), .expiry]
      (initState (.success 40000))).interrupt_flag = true ∧
    (main_loop_iteration workingPeriph (.failure .STARTED (some 9))
      (run workingPeriph [.iteration (.failure .STARTED (some 7)), .expiry]
        (initState (.success 40000)))).wdtMatch
      = ((run workingPeriph [.iteration (.failure .STARTED (some 7)), .expiry]
          (initState (.success 40000))).wdtMatch
          + (mostRecentSuccess (.success 40000 ::
              outcomes [.iteration (.failure .STARTED (some 7)), .expiry])).getD 0) % 2 ^ 16 :=
  ⟨rfl, by decide, by decide,
   (C3_advance_from_last_success (.success 40000)
      [.iteration (.failure .STARTED (some 7)), .expiry] (.failure .STARTED (some 9))
      (bootState 0 0) (initState (.success 40000)) rfl (by decide) (by decide)).2⟩

end WdtExample
